import Mathlib

/-!
Shallow embedding of the AI-calories backend's nutrient resolution and
aggregation cache subsystem (routes in `src/unnamed/part_002`, redis layer in
`src/src/database/redis.js`, table schema in `src/src/routes/auth.js`).

Conventions of the embedding:
- JS numbers are modelled as `ℚ` (all arithmetic in the modelled code is exact
  decimal arithmetic on DECIMAL database columns and small integers).
- Nullable columns and optional JSON fields are `Option _`.
- Calendar dates (`YYYY-MM-DD` strings in the code) are modelled as `Nat`
  days-since-epoch (1970-01-01 = day 0, a Thursday, so JS `getDay` of day `d`
  is `(d + 4) % 7`).  The `daily_nutrition:{uid}:{date}` and
  `weekly_summary:{uid}:{date}` cache-key strings are injective in
  `(uid, date)`, so caches are keyed by the pair directly.
- Redis and Postgres are explicit state; each route handler is a function
  from state to result × state.
-/

namespace AICalories

/-- JS truthiness of an optional numeric id (`undefined`, `null` and `0` are falsy). -/
def jsTruthyN (o : Option Nat) : Bool :=
  match o with
  | none => false
  | some n => n != 0

/-- JS truthiness of an optional string (`undefined`, `null` and `""` are falsy). -/
def jsTruthyS (o : Option String) : Bool :=
  match o with
  | none => false
  | some s => s != ""

/-- JS `a || b` on numbers: `a` when truthy (nonzero), else `b`. -/
def jsOr (a b : ℚ) : ℚ := if a = 0 then b else a

/-- Coerce an optional number the way the code's `x || 0` / arithmetic does:
`null`/`undefined` behave as 0. -/
def num (o : Option ℚ) : ℚ := o.getD 0

/-- JS `Math.round`: round half up (towards +∞). -/
def jsRound (q : ℚ) : ℤ := Int.floor (q + 1/2)

/-- The seven canonical nutrient fields. -/
inductive Nutrient
  | calories | protein | carbs | fat | fiber | sugar | sodium
deriving DecidableEq, Repr

/-- A seven-field nutrient payload (the `calories..sodium` columns). -/
structure NutritionPayload where
  calories : ℚ
  protein : ℚ
  carbs : ℚ
  fat : ℚ
  fiber : ℚ
  sugar : ℚ
  sodium : ℚ
deriving DecidableEq, Repr

def NutritionPayload.get (nd : NutritionPayload) : Nutrient → ℚ
  | .calories => nd.calories
  | .protein => nd.protein
  | .carbs => nd.carbs
  | .fat => nd.fat
  | .fiber => nd.fiber
  | .sugar => nd.sugar
  | .sodium => nd.sodium

def NutritionPayload.zero : NutritionPayload := ⟨0, 0, 0, 0, 0, 0, 0⟩

def NutritionPayload.add (a b : NutritionPayload) : NutritionPayload :=
  ⟨a.calories + b.calories, a.protein + b.protein, a.carbs + b.carbs,
   a.fat + b.fat, a.fiber + b.fiber, a.sugar + b.sugar, a.sodium + b.sodium⟩

/-- An integer-valued seven-field record (percentages, weekly averages). -/
structure IntPayload where
  calories : ℤ
  protein : ℤ
  carbs : ℤ
  fat : ℤ
  fiber : ℤ
  sugar : ℤ
  sodium : ℤ
deriving DecidableEq, Repr

def IntPayload.get (p : IntPayload) : Nutrient → ℤ
  | .calories => p.calories
  | .protein => p.protein
  | .carbs => p.carbs
  | .fat => p.fat
  | .fiber => p.fiber
  | .sugar => p.sugar
  | .sodium => p.sodium

/-- The USDA nutrient name selected by the `/log` route's SQL for each canonical field. -/
def canonicalName : Nutrient → String
  | .calories => "Energy (kcal)"
  | .protein => "Protein"
  | .carbs => "Carbohydrate, by difference"
  | .fat => "Total lipid (fat)"
  | .fiber => "Fiber, total dietary"
  | .sugar => "Sugars, total"
  | .sodium => "Sodium, Na"

/-- The seven names in the SQL `IN (...)` list of the catalog-food branch. -/
def canonicalNames : List String :=
  ["Energy (kcal)", "Protein", "Carbohydrate, by difference",
   "Total lipid (fat)", "Fiber, total dietary", "Sugars, total", "Sodium, Na"]

/-- One `food_nutrients ⋈ nutrients` row: (food id, nutrient name, amount). -/
structure CatalogRow where
  food_id : Nat
  name : String
  amount : ℚ
deriving DecidableEq, Repr

/-- The SQL of the catalog branch: rows of the food filtered to the seven
canonical nutrient names. -/
def fetchCatalogNutrients (catalog : List CatalogRow) (foodId : Nat) : List CatalogRow :=
  catalog.filter (fun r => r.food_id == foodId && canonicalNames.contains r.name)

/-- One iteration of the `nutritionResult.rows.forEach` switch in the `/log`
route: write `row.amount * amount` into the field selected by the row's name. -/
def applyCatalogRow (amount : ℚ) (nd : NutritionPayload) (row : CatalogRow) : NutritionPayload :=
  let nutrientAmount := row.amount * amount
  if row.name = "Energy (kcal)" then { nd with calories := nutrientAmount }
  else if row.name = "Protein" then { nd with protein := nutrientAmount }
  else if row.name = "Carbohydrate, by difference" then { nd with carbs := nutrientAmount }
  else if row.name = "Total lipid (fat)" then { nd with fat := nutrientAmount }
  else if row.name = "Fiber, total dietary" then { nd with fiber := nutrientAmount }
  else if row.name = "Sugars, total" then { nd with sugar := nutrientAmount }
  else if row.name = "Sodium, Na" then { nd with sodium := nutrientAmount }
  else nd

/-- A `user_custom_foods` row (nutrient columns only; the per-serving values
are the scaling basis of the custom-food branch). -/
structure CustomFood where
  id : Nat
  user_id : Nat
  calories_per_serving : Option ℚ
  protein_per_serving : Option ℚ
  carbs_per_serving : Option ℚ
  fat_per_serving : Option ℚ
  fiber_per_serving : Option ℚ
  sugar_per_serving : Option ℚ
  sodium_per_serving : Option ℚ
deriving DecidableEq, Repr

/-- The request body of `POST /api/nutrition/log` after validation. -/
structure LogRequest where
  foodId : Option Nat
  customFoodId : Option Nat
  customFoodName : Option String
  amount : ℚ
  unit : String
  mealType : String
  logDate : Nat
  logTime : Option String
  calories : Option ℚ
  protein : Option ℚ
  carbs : Option ℚ
  fat : Option ℚ
  fiber : Option ℚ
  sugar : Option ℚ
  sodium : Option ℚ
deriving DecidableEq, Repr

/-- The caller's explicitly supplied nutrient value for a field. -/
def LogRequest.explicitN (req : LogRequest) : Nutrient → Option ℚ
  | .calories => req.calories
  | .protein => req.protein
  | .carbs => req.carbs
  | .fat => req.fat
  | .fiber => req.fiber
  | .sugar => req.sugar
  | .sodium => req.sodium

/-- Error taxonomy of the routes (HTTP 400 missing-source, 404, 400 empty update). -/
inductive ApiError
  | invalidSource
  | notFound
  | badRequest
deriving DecidableEq, Repr

/-- Nutrient resolution of `POST /log` (part_002 lines 230–313): reject a
request with no food source; seed the payload from the caller's explicit
values (`x || 0`); a truthy `customFoodId` loads the owned custom food and
scales its per-serving values by `amount` (404 when absent); else a truthy
`foodId` folds the food's canonical catalog rows over the seeded payload. -/
def resolveNutrition (customFoods : List CustomFood) (catalog : List CatalogRow)
    (uid : Nat) (req : LogRequest) : Except ApiError NutritionPayload :=
  if !jsTruthyN req.foodId && !jsTruthyN req.customFoodId && !jsTruthyS req.customFoodName then
    .error .invalidSource
  else
    let nutritionData : NutritionPayload :=
      { calories := num req.calories, protein := num req.protein, carbs := num req.carbs,
        fat := num req.fat, fiber := num req.fiber, sugar := num req.sugar,
        sodium := num req.sodium }
    if jsTruthyN req.customFoodId then
      match (customFoods.filter
          (fun cf => some cf.id == req.customFoodId && cf.user_id == uid)).head? with
      | none => .error .notFound
      | some customFood =>
        .ok { calories := num customFood.calories_per_serving * req.amount,
              protein := num customFood.protein_per_serving * req.amount,
              carbs := num customFood.carbs_per_serving * req.amount,
              fat := num customFood.fat_per_serving * req.amount,
              fiber := num customFood.fiber_per_serving * req.amount,
              sugar := num customFood.sugar_per_serving * req.amount,
              sodium := num customFood.sodium_per_serving * req.amount }
    else if jsTruthyN req.foodId then
      .ok ((fetchCatalogNutrients catalog (req.foodId.getD 0)).foldl
        (applyCatalogRow req.amount) nutritionData)
    else
      .ok nutritionData

/-- A stored `user_food_logs` row.  The table (auth.js schema) has columns
`id, user_id, food_id, custom_food_name, amount, unit, meal_type, log_date,
log_time, calories..sodium`; it has NO `custom_food_id` column, and the
`/log` INSERT writes exactly the columns below (the seven nutrient columns
are grouped as `nutrition`). -/
structure FoodLog where
  id : Nat
  user_id : Nat
  food_id : Option Nat
  custom_food_name : Option String
  amount : ℚ
  unit : String
  meal_type : String
  log_date : Nat
  log_time : Option String
  nutrition : NutritionPayload
deriving DecidableEq, Repr

/-- A source reference in a stored row: the only columns of `user_food_logs`
that can reference a food source. -/
def FoodLog.hasSourceRef (e : FoodLog) : Bool :=
  e.food_id.isSome || e.custom_food_name.isSome

/-- The relational store: the `user_food_logs` table plus an id sequence. -/
structure Db where
  logs : List FoodLog
  nextId : Nat

def entriesFor (db : Db) (uid date : Nat) : List FoodLog :=
  db.logs.filter (fun e => e.user_id == uid && e.log_date == date)

/-- `SELECT COALESCE(SUM(col),0) ... WHERE user_id = $1 AND log_date = $2`
for the seven nutrient columns. -/
def sumNutrition (l : List FoodLog) : NutritionPayload :=
  l.foldl (fun acc e => acc.add e.nutrition) .zero

/-- The `users ⋈ user_preferences` row read by `/daily` (the fields used by
the target fallback chain). -/
structure UserRow where
  target_calories : Option ℚ
  weight : Option ℚ
  calorie_goal : Option ℚ
  protein_goal : Option ℚ
  carb_goal : Option ℚ
  fat_goal : Option ℚ
  fiber_goal : Option ℚ
  sugar_goal : Option ℚ
  sodium_goal : Option ℚ
deriving DecidableEq, Repr

/-- The target fallback chain of `/daily` (part_002 lines 84–92), with JS
`||` truthiness and conditional expressions. -/
def computeTargets (u : UserRow) : NutritionPayload :=
  { calories := jsOr (num u.calorie_goal) (jsOr (num u.target_calories) 2000),
    protein := jsOr (num u.protein_goal)
      (if num u.weight ≠ 0 then num u.weight * 1.6 else 150),
    carbs := jsOr (num u.carb_goal)
      (if num u.target_calories ≠ 0 then num u.target_calories * 0.45 / 4 else 250),
    fat := jsOr (num u.fat_goal)
      (if num u.target_calories ≠ 0 then num u.target_calories * 0.25 / 9 else 67),
    fiber := jsOr (num u.fiber_goal) 25,
    sugar := jsOr (num u.sugar_goal) 50,
    sodium := jsOr (num u.sodium_goal) 2300 }

/-- `Math.round((total / target) * 100)` per field (part_002 lines 95–103). -/
def computePercentages (total targets : NutritionPayload) : IntPayload :=
  { calories := jsRound (total.calories / targets.calories * 100),
    protein := jsRound (total.protein / targets.protein * 100),
    carbs := jsRound (total.carbs / targets.carbs * 100),
    fat := jsRound (total.fat / targets.fat * 100),
    fiber := jsRound (total.fiber / targets.fiber * 100),
    sugar := jsRound (total.sugar / targets.sugar * 100),
    sodium := jsRound (total.sodium / targets.sodium * 100) }

/-- `Math.max(0, target - total)` per field (part_002 lines 120–128). -/
def computeRemaining (total targets : NutritionPayload) : NutritionPayload :=
  { calories := max 0 (targets.calories - total.calories),
    protein := max 0 (targets.protein - total.protein),
    carbs := max 0 (targets.carbs - total.carbs),
    fat := max 0 (targets.fat - total.fat),
    fiber := max 0 (targets.fiber - total.fiber),
    sugar := max 0 (targets.sugar - total.sugar),
    sodium := max 0 (targets.sodium - total.sodium) }

/-- The per-meal grouping built when `includeMeals` is requested
(part_002 lines 144–156): entries bucketed by `meal_type`; rows whose
`meal_type` is none of the four groups are dropped. -/
structure MealGroups where
  breakfast : List FoodLog
  lunch : List FoodLog
  dinner : List FoodLog
  snack : List FoodLog
deriving DecidableEq, Repr

def groupMeals (l : List FoodLog) : MealGroups :=
  { breakfast := l.filter (fun e => e.meal_type == "breakfast"),
    lunch := l.filter (fun e => e.meal_type == "lunch"),
    dinner := l.filter (fun e => e.meal_type == "dinner"),
    snack := l.filter (fun e => e.meal_type == "snack") }

structure DailySummary where
  total : NutritionPayload
  targets : NutritionPayload
  percentages : IntPayload
  remaining : NutritionPayload
  totalFoods : Nat
deriving DecidableEq, Repr

/-- The `/daily` response body.  The route stores this whole object in the
cache; the cache-hit path returns it with `fromCache` flipped to `true`
(the JS `{...cachedData, fromCache: true}` spread). -/
structure DailyResponse where
  date : Nat
  summary : DailySummary
  meals : Option MealGroups
  fromCache : Bool
deriving DecidableEq, Repr

/-- The daily aggregate cache, keyed by `(userId, date)` — the pair that the
`daily_nutrition:{uid}:{date}` key string encodes injectively. -/
abbrev DailyCache := Nat × Nat → Option DailyResponse

def cacheSet (c : DailyCache) (k : Nat × Nat) (v : DailyResponse) : DailyCache :=
  fun k2 => if k2 = k then some v else c k2

def cacheDel (c : DailyCache) (k : Nat × Nat) : DailyCache :=
  fun k2 => if k2 = k then none else c k2

/-- `SELECT ... FROM users LEFT JOIN user_preferences ... WHERE u.id = $1`. -/
def lookupUser (users : List (Nat × UserRow)) (uid : Nat) : Option UserRow :=
  ((users.filter (fun p => p.1 == uid)).head?).map Prod.snd

/-- The cache-miss computation of `/daily` (part_002 lines 46–164): 404 when
the user row is absent; otherwise sum the date's entries, resolve targets,
compute percentages and remaining, attach the per-meal grouping when
`includeMeals`, store the response under the date's key (TTL 300s, TTL not
modelled) and return it. -/
def dailyCompute (db : Db) (users : List (Nat × UserRow)) (uid date : Nat)
    (includeMeals : Bool) (c : DailyCache) : Except ApiError DailyResponse × DailyCache :=
  match lookupUser users uid with
  | none => (.error .notFound, c)
  | some user =>
    let entries := entriesFor db uid date
    let total := sumNutrition entries
    let targets := computeTargets user
    let resp : DailyResponse :=
      { date := date,
        summary :=
          { total := total, targets := targets,
            percentages := computePercentages total targets,
            remaining := computeRemaining total targets,
            totalFoods := entries.length },
        meals := if includeMeals then some (groupMeals entries) else none,
        fromCache := false }
    (.ok resp, cacheSet c (uid, date) resp)

/-- `GET /api/nutrition/daily` (part_002 lines 21–172): serve the cached
response when present and `includeMeals` was not requested
(`if (cachedData && !includeMeals)`), else recompute. -/
def dailyGet (db : Db) (c : DailyCache) (users : List (Nat × UserRow)) (uid date : Nat)
    (includeMeals : Bool) : Except ApiError DailyResponse × DailyCache :=
  match c (uid, date) with
  | some cachedData =>
    if includeMeals then dailyCompute db users uid date includeMeals c
    else (.ok { cachedData with fromCache := true }, c)
  | none => dailyCompute db users uid date includeMeals c

/-- The whole mutable state the nutrition routes touch. -/
structure SysState where
  db : Db
  cache : DailyCache
  customFoods : List CustomFood
  catalog : List CatalogRow

/-- `POST /api/nutrition/log` (part_002 lines 201–347): resolve the nutrient
payload, INSERT the row (columns as listed — `customFoodId` is NOT among the
inserted columns), delete the daily cache key for `(uid, logDate)`, return
the stored row. -/
def logEntry (st : SysState) (uid : Nat) (req : LogRequest) :
    Except ApiError (FoodLog × SysState) :=
  match resolveNutrition st.customFoods st.catalog uid req with
  | .error e => .error e
  | .ok nutritionData =>
    let row : FoodLog :=
      { id := st.db.nextId, user_id := uid,
        food_id := req.foodId, custom_food_name := req.customFoodName,
        amount := req.amount, unit := req.unit, meal_type := req.mealType,
        log_date := req.logDate, log_time := req.logTime,
        nutrition := nutritionData }
    .ok (row,
      { st with
        db := { logs := st.db.logs ++ [row], nextId := st.db.nextId + 1 },
        cache := cacheDel st.cache (uid, req.logDate) })

/-- The request body of `PUT /api/nutrition/log/:id`: validation admits only
`amount`, `unit`, `mealType`, `logTime`. -/
structure UpdateRequest where
  amount : Option ℚ
  unit : Option String
  mealType : Option String
  logTime : Option String
deriving DecidableEq, Repr

def UpdateRequest.isEmpty (r : UpdateRequest) : Bool :=
  r.amount.isNone && r.unit.isNone && r.mealType.isNone && r.logTime.isNone

/-- The dynamic `SET` clause of the update: overwrite exactly the provided
fields; every other column of the row is untouched. -/
def applyUpdate (r : UpdateRequest) (e : FoodLog) : FoodLog :=
  { e with
    amount := r.amount.getD e.amount,
    unit := r.unit.getD e.unit,
    meal_type := r.mealType.getD e.meal_type,
    log_time := match r.logTime with | some t => some t | none => e.log_time }

/-- `PUT /api/nutrition/log/:id` (part_002 lines 368–435): 404 unless an
owned row with the id exists; 400 when no updatable field was provided; else
apply the SET clause to the matching rows, delete the daily cache key for
`(uid, existing row's log_date)`, return the updated row. -/
def updateEntry (st : SysState) (uid id : Nat) (req : UpdateRequest) :
    Except ApiError (FoodLog × SysState) :=
  match (st.db.logs.filter (fun e => e.id == id && e.user_id == uid)).head? with
  | none => .error .notFound
  | some existingLog =>
    if req.isEmpty then .error .badRequest
    else
      .ok (applyUpdate req existingLog,
        { st with
          db := { st.db with
            logs := st.db.logs.map
              (fun e => if e.id == id && e.user_id == uid then applyUpdate req e else e) },
          cache := cacheDel st.cache (uid, existingLog.log_date) })

/-- `DELETE /api/nutrition/log/:id` (part_002 lines 450–489): 404 unless an
owned row exists; read its `log_date`, DELETE the row, delete the daily
cache key for `(uid, log_date)`.  Returns the deleted row's date. -/
def deleteEntry (st : SysState) (uid id : Nat) :
    Except ApiError (Nat × SysState) :=
  match (st.db.logs.filter (fun e => e.id == id && e.user_id == uid)).head? with
  | none => .error .notFound
  | some logRow =>
    .ok (logRow.log_date,
      { st with
        db := { st.db with
          logs := st.db.logs.filter (fun e => !(e.id == id && e.user_id == uid)) },
        cache := cacheDel st.cache (uid, logRow.log_date) })

/-- A write against the log store, for stating the shared invalidation
property of the three write routes. -/
inductive WriteOp
  | log (req : LogRequest)
  | update (id : Nat) (req : UpdateRequest)
  | delete (id : Nat)

/-- Run a write; on success return the date whose daily cache key the route
deleted, together with the new state. -/
def applyWrite (st : SysState) (uid : Nat) : WriteOp → Except ApiError (Nat × SysState)
  | .log req => (logEntry st uid req).map (fun p => (req.logDate, p.2))
  | .update id req => (updateEntry st uid id req).map (fun p => (p.1.log_date, p.2))
  | .delete id => deleteEntry st uid id

/-- The date a successful write affected: for a log, the request's
`logDate`; for an update or delete, the date of the targeted stored row. -/
def affectedDateOk (st : SysState) (uid : Nat) (op : WriteOp) (d : Nat) : Prop :=
  match op with
  | .log req => d = req.logDate
  | .update id _ =>
    ∃ e, e ∈ st.db.logs ∧ e.id = id ∧ e.user_id = uid ∧ e.log_date = d
  | .delete id =>
    ∃ e, e ∈ st.db.logs ∧ e.id = id ∧ e.user_id = uid ∧ e.log_date = d

/-! ### Weekly summary (`GET /api/nutrition/weekly-summary`) -/

/-- JS `Date.getDay` of a days-since-epoch value: day 0 (1970-01-01) is a
Thursday, and `getDay` numbers Sunday as 0. -/
def jsGetDay (d : Nat) : Nat := (d + 4) % 7

/-- Lines 584–590 of part_002: the Monday of the week containing `today`
(`daysToMonday = dayOfWeek === 0 ? 6 : dayOfWeek - 1`). -/
def mondayOf (today : Nat) : Nat :=
  today - (if jsGetDay today = 0 then 6 else jsGetDay today - 1)

/-- Lines 580–591: the week start actually used by the route — an explicit
`weekStart` is taken verbatim; only when it is absent is the current week's
Monday computed. -/
def resolveWeekStart (weekStart : Option Nat) (today : Nat) : Nat :=
  match weekStart with
  | some d => d
  | none => mondayOf today

/-- One row of the weekly `GROUP BY log_date` query. -/
structure DayRow where
  date : Nat
  nutrition : NutritionPayload
  foodCount : Nat
deriving DecidableEq, Repr

/-- The seven calendar dates of the window `[start, start + 6]`
(`log_date BETWEEN $2 AND $3` with `endDate = startDate + 6 days`). -/
def weekDates (start : Nat) : List Nat :=
  [start, start + 1, start + 2, start + 3, start + 4, start + 5, start + 6]

/-- The `GROUP BY log_date ... ORDER BY log_date ASC` query over the window
`[start, start+6]`: one row per date having at least one entry. -/
def weeklyRows (db : Db) (uid start : Nat) : List DayRow :=
  (weekDates start).filterMap (fun d =>
    let es := entriesFor db uid d
    if es.isEmpty then none
    else some { date := d, nutrition := sumNutrition es, foodCount := es.length })

/-- The dates of the 7-day window that have at least one entry. -/
def daysWithEntries (db : Db) (uid start : Nat) : List Nat :=
  (weekDates start).filter (fun d => !(entriesFor db uid d).isEmpty)

structure WeeklyTotals where
  nutrition : NutritionPayload
  foodCount : Nat
deriving DecidableEq, Repr

structure WeeklySummary where
  total : WeeklyTotals
  average : IntPayload
  dailyData : List DayRow
deriving DecidableEq, Repr

/-- Lines 627–681: totals folded over the daily rows, then per-field
`Math.round(total / daysWithData)` with `daysWithData = dailyData.length || 1`. -/
def computeWeekly (db : Db) (uid start : Nat) : WeeklySummary :=
  let dailyData := weeklyRows db uid start
  let total := dailyData.foldl
    (fun acc day => { nutrition := acc.nutrition.add day.nutrition,
                      foodCount := acc.foodCount + day.foodCount })
    ({ nutrition := .zero, foodCount := 0 } : WeeklyTotals)
  let daysWithData := if dailyData.length = 0 then 1 else dailyData.length
  { total := total,
    average :=
      { calories := jsRound (total.nutrition.calories / daysWithData),
        protein := jsRound (total.nutrition.protein / daysWithData),
        carbs := jsRound (total.nutrition.carbs / daysWithData),
        fat := jsRound (total.nutrition.fat / daysWithData),
        fiber := jsRound (total.nutrition.fiber / daysWithData),
        sugar := jsRound (total.nutrition.sugar / daysWithData),
        sodium := jsRound (total.nutrition.sodium / daysWithData) },
    dailyData := dailyData }

/-- The `/weekly-summary` response body. -/
structure WeeklyResponse where
  weekStart : Nat
  weekEnd : Nat
  summary : WeeklySummary
  fromCache : Bool
deriving DecidableEq, Repr

/-- The weekly cache, keyed by `(userId, startDate)` — the pair the
`weekly_summary:{uid}:{start}` key string encodes injectively. -/
abbrev WeeklyCache := Nat × Nat → Option WeeklyResponse

/-- Lines 576–693: resolve the week start, serve from cache on hit, else
compute the window `[start, start+6]`, cache for one hour (TTL not
modelled) and return. -/
def weeklyGet (db : Db) (wc : WeeklyCache) (uid : Nat) (weekStart : Option Nat)
    (today : Nat) : WeeklyResponse × WeeklyCache :=
  let startDate := resolveWeekStart weekStart today
  match wc (uid, startDate) with
  | some cachedData => ({ cachedData with fromCache := true }, wc)
  | none =>
    let resp : WeeklyResponse :=
      { weekStart := startDate, weekEnd := startDate + 6,
        summary := computeWeekly db uid startDate, fromCache := false }
    (resp, fun k2 => if k2 = (uid, startDate) then some resp else wc k2)

/-! ### Rate limiter (`rateLimit.check`, redis.js lines 176–195) -/

/-- The result object of `rateLimit.check`. -/
structure CheckResult where
  allowed : Bool
  count : Nat
  limit : Nat
  resetTime : Int
deriving DecidableEq, Repr

/-- The redis operations `check` performs, over an abstract store state `σ`;
each may fail (the `catch` path). -/
structure RedisOps (σ : Type) where
  incr : String → σ → Except Unit (Nat × σ)
  expire : String → Nat → σ → Except Unit σ
  ttl : String → σ → Except Unit (Int × σ)

/-- The `try` body of `rateLimit.check`: `INCR key`; when the post-increment
value is 1, `EXPIRE key window`; `allowed` iff the count is at most `limit`;
`resetTime` is `TTL key`. -/
def runCheck {σ : Type} (ops : RedisOps σ) (key : String) (limit window : Nat)
    (s : σ) : Except Unit (CheckResult × σ) :=
  match ops.incr key s with
  | .error e => .error e
  | .ok (current, s1) =>
    match (if current = 1 then ops.expire key window s1 else .ok s1) with
    | .error e => .error e
    | .ok s2 =>
      match ops.ttl key s2 with
      | .error e => .error e
      | .ok (t, s3) =>
        .ok ({ allowed := decide (current ≤ limit), count := current,
               limit := limit, resetTime := t }, s3)

/-- `rateLimit.check` with its `catch`: on any redis failure return
`{allowed: true, count: 0, limit, resetTime: 0}` (fail open). -/
def rateLimitCheck {σ : Type} (ops : RedisOps σ) (key : String) (limit window : Nat)
    (s : σ) : CheckResult × σ :=
  match runCheck ops key limit window s with
  | .ok r => r
  | .error _ => ({ allowed := true, count := 0, limit := limit, resetTime := 0 }, s)

/-- A concrete redis store: a counter per key (0 = absent) and an optional
expiry per key. -/
structure RedisState where
  counters : String → Nat
  expiry : String → Option Nat

def RedisState.empty : RedisState := { counters := fun _ => 0, expiry := fun _ => none }

/-- Redis `TTL`: remaining expiry, `-1` for a key without expiry, `-2` for a
missing key.  Wall-clock decay is not modelled (all calls within one window). -/
def ttlOf (s : RedisState) (k : String) : Int :=
  match s.expiry k with
  | some t => (t : Int)
  | none => if s.counters k = 0 then -2 else -1

/-- The real (non-failing) redis operations over `RedisState`: atomic
`INCR`, `EXPIRE`, `TTL`. -/
def goodOps : RedisOps RedisState :=
  { incr := fun k s =>
      .ok (s.counters k + 1,
        { s with counters := fun k2 => if k2 = k then s.counters k + 1 else s.counters k2 }),
    expire := fun k w s =>
      .ok { s with expiry := fun k2 => if k2 = k then some w else s.expiry k2 },
    ttl := fun k s => .ok (ttlOf s k, s) }

def emptyDCache : DailyCache := fun _ => none

def emptyWCache : WeeklyCache := fun _ => none

/-! ### Concrete fixtures used by witnesses and counterexamples -/

/-- A user with no explicit goals and no profile fields (all targets fall
back to the hardcoded defaults). -/
def wUser : UserRow :=
  { target_calories := none, weight := none, calorie_goal := none, protein_goal := none,
    carb_goal := none, fat_goal := none, fiber_goal := none, sugar_goal := none,
    sodium_goal := none }

def emptyDb : Db := { logs := [], nextId := 1 }

/-- A stale cached daily response (zero totals) seeded before a write. -/
def staleResp : DailyResponse :=
  { date := 20000,
    summary :=
      { total := .zero, targets := .zero, percentages := ⟨0, 0, 0, 0, 0, 0, 0⟩,
        remaining := .zero, totalFoods := 0 },
    meals := none, fromCache := false }

/-- A free-text log request for user 1, date 20000, with 100 explicit kcal. -/
def wLogReq : LogRequest :=
  { foodId := none, customFoodId := none, customFoodName := some "apple", amount := 1,
    unit := "g", mealType := "snack", logDate := 20000, logTime := none,
    calories := some 100, protein := none, carbs := none, fat := none, fiber := none,
    sugar := none, sodium := none }

/-- Initial state for the C1 witness: empty log store, stale cache entry for
`(1, 20000)`. -/
def wSt0 : SysState :=
  { db := emptyDb,
    cache := fun k => if k = (1, 20000) then some staleResp else none,
    customFoods := [], catalog := [] }

/-- State after the C1 witness write. -/
def wSt1 : SysState :=
  match applyWrite wSt0 1 (.log wLogReq) with
  | .ok p => p.2
  | .error _ => wSt0

/-- A 100-kcal-per-serving custom food owned by user 1. -/
def c2CustomFood : CustomFood :=
  { id := 5, user_id := 1, calories_per_serving := some 100, protein_per_serving := none,
    carbs_per_serving := none, fat_per_serving := none, fiber_per_serving := none,
    sugar_per_serving := none, sodium_per_serving := none }

/-- A log request whose only source reference is the custom-food id 5. -/
def c2Req : LogRequest :=
  { foodId := none, customFoodId := some 5, customFoodName := none, amount := 2,
    unit := "serving", mealType := "lunch", logDate := 20000, logTime := none,
    calories := none, protein := none, carbs := none, fat := none, fiber := none,
    sugar := none, sodium := none }

/-- The same request with every source reference absent. -/
def c2NoSrcReq : LogRequest := { c2Req with customFoodId := none }

def c2St : SysState :=
  { db := emptyDb, cache := emptyDCache, customFoods := [c2CustomFood], catalog := [] }

def junkFoodLog : FoodLog :=
  { id := 0, user_id := 0, food_id := none, custom_food_name := none, amount := 0,
    unit := "", meal_type := "", log_date := 0, log_time := none, nutrition := .zero }

def c2Row : FoodLog :=
  match logEntry c2St 1 c2Req with
  | .ok p => p.1
  | .error _ => junkFoodLog

def c2St2 : SysState :=
  match logEntry c2St 1 c2Req with
  | .ok p => p.2
  | .error _ => c2St

/-- A catalog holding only an energy row for food 5. -/
def c3Catalog : List CatalogRow := [{ food_id := 5, name := "Energy (kcal)", amount := 100 }]

/-- A catalog-food log request that also supplies an explicit protein value. -/
def c3Req : LogRequest :=
  { foodId := some 5, customFoodId := none, customFoodName := none, amount := 1,
    unit := "g", mealType := "dinner", logDate := 20000, logTime := none,
    calories := none, protein := some 50, carbs := none, fat := none, fiber := none,
    sugar := none, sodium := none }

/-- A stored entry: amount 1, 100 kcal. -/
def c4Entry : FoodLog :=
  { id := 1, user_id := 1, food_id := none, custom_food_name := some "rice", amount := 1,
    unit := "serving", meal_type := "lunch", log_date := 20000, log_time := none,
    nutrition := { calories := 100, protein := 0, carbs := 0, fat := 0, fiber := 0,
                   sugar := 0, sodium := 0 } }

def c4St : SysState :=
  { db := { logs := [c4Entry], nextId := 2 }, cache := emptyDCache,
    customFoods := [], catalog := [] }

/-- An update that only doubles the amount. -/
def c4Req : UpdateRequest := { amount := some 2, unit := none, mealType := none, logTime := none }

def c4Row : FoodLog :=
  match updateEntry c4St 1 1 c4Req with
  | .ok p => p.1
  | .error _ => junkFoodLog

def c4St2 : SysState :=
  match updateEntry c4St 1 1 c4Req with
  | .ok p => p.2
  | .error _ => c4St

def c5Db : Db := { logs := [c4Entry], nextId := 2 }

def junkDailyResponse : DailyResponse := staleResp

/-- The cache produced by a `/daily` request with `includeMeals = true`. -/
def c5Cache1 : DailyCache :=
  (dailyGet c5Db emptyDCache [(1, wUser)] 1 20000 true).2

/-- The response produced by that request. -/
def c5R1 : DailyResponse :=
  match (dailyGet c5Db emptyDCache [(1, wUser)] 1 20000 true).1 with
  | .ok r => r
  | .error _ => junkDailyResponse

def c6R : DailyResponse :=
  match (dailyCompute c5Db [(1, wUser)] 1 20000 false emptyDCache).1 with
  | .ok r => r
  | .error _ => junkDailyResponse

def c6C2 : DailyCache :=
  (dailyCompute c5Db [(1, wUser)] 1 20000 false emptyDCache).2

/-- Redis operations that always fail (connection down). -/
def failOps : RedisOps Unit :=
  { incr := fun _ _ => .error (), expire := fun _ _ _ => .error (),
    ttl := fun _ _ => .error () }

def rlKey : String := "rate_limit:user1:image"

def rlCall1 : CheckResult × RedisState := rateLimitCheck goodOps rlKey 3 60 RedisState.empty
def rlCall2 : CheckResult × RedisState := rateLimitCheck goodOps rlKey 3 60 rlCall1.2
def rlCall3 : CheckResult × RedisState := rateLimitCheck goodOps rlKey 3 60 rlCall2.2
def rlCall4 : CheckResult × RedisState := rateLimitCheck goodOps rlKey 3 60 rlCall3.2

/-- The `allowed` flags of four consecutive calls in one window. -/
def rlAllowedSeq : List Bool :=
  [rlCall1.1.allowed, rlCall2.1.allowed, rlCall3.1.allowed, rlCall4.1.allowed]

/-- One entry of the given calories for user 1 on the given date. -/
def c10Entry (id date : Nat) (cal : ℚ) : FoodLog :=
  { id := id, user_id := 1, food_id := none, custom_food_name := some "meal", amount := 1,
    unit := "serving", meal_type := "dinner", log_date := date, log_time := none,
    nutrition := { calories := cal, protein := 0, carbs := 0, fat := 0, fiber := 0,
                   sugar := 0, sodium := 0 } }

/-- Three days with entries (1800, 2000, 2200 kcal) inside the week starting
at day 19723 (Monday 2024-01-01). -/
def c10Db : Db :=
  { logs := [c10Entry 1 19723 1800, c10Entry 2 19724 2000, c10Entry 3 19725 2200],
    nextId := 4 }

/-! ### Helper lemmas -/

theorem head_filter_mem {α : Type} (p : α → Bool) (l : List α) (a : α)
    (h : (l.filter p).head? = some a) : a ∈ l ∧ p a = true := by
  have hmem : a ∈ l.filter p := by
    cases hf : l.filter p with
    | nil => rw [hf] at h; cases h
    | cons x xs =>
      rw [hf] at h
      simp only [List.head?_cons, Option.some.injEq] at h
      exact List.mem_cons.mpr (Or.inl h.symm)
  exact List.mem_filter.mp hmem

theorem length_weeklyRows (db : Db) (uid start : Nat) :
    (weeklyRows db uid start).length = (daysWithEntries db uid start).length := by
  unfold weeklyRows daysWithEntries
  generalize weekDates start = l
  induction l with
  | nil => rfl
  | cons d l ih =>
    simp only [List.filterMap_cons, List.filter_cons]
    by_cases h : (entriesFor db uid d).isEmpty
    · simp only [h, Bool.not_true, if_false]
      exact ih
    · simp only [Bool.not_eq_true] at h
      simp only [h, Bool.not_false, if_true, List.length_cons]
      exact congrArg Nat.succ ih

theorem get_applyCatalogRow (a : ℚ) (nd : NutritionPayload) (row : CatalogRow) (f : Nutrient) :
    (applyCatalogRow a nd row).get f =
      if row.name = canonicalName f then row.amount * a else nd.get f := by
  cases f <;>
    simp only [applyCatalogRow, canonicalName, NutritionPayload.get] <;>
    split_ifs <;>
    simp_all

theorem get_foldl_applyCatalogRow (a : ℚ) (f : Nutrient) (rows : List CatalogRow)
    (init : NutritionPayload) :
    (rows.foldl (applyCatalogRow a) init).get f =
      (rows.filter (fun r => r.name == canonicalName f)).foldl
        (fun _ r => r.amount * a) (init.get f) := by
  induction rows generalizing init with
  | nil => rfl
  | cons r rs ih =>
    simp only [List.foldl_cons, List.filter_cons]
    by_cases h : r.name = canonicalName f
    · rw [if_pos (by simp [h])]
      simp only [List.foldl_cons]
      rw [ih, get_applyCatalogRow, if_pos h]
    · rw [if_neg (by simp [h])]
      rw [ih, get_applyCatalogRow, if_neg h]

theorem get_seedPayload (req : LogRequest) (f : Nutrient) :
    (({ calories := num req.calories, protein := num req.protein, carbs := num req.carbs,
        fat := num req.fat, fiber := num req.fiber, sugar := num req.sugar,
        sodium := num req.sodium } : NutritionPayload)).get f = num (req.explicitN f) := by
  cases f <;> rfl

theorem cacheDel_self (c : DailyCache) (k : Nat × Nat) : cacheDel c k k = none := by
  simp [cacheDel]

theorem dailyGet_miss (db : Db) (c : DailyCache) (uid date : Nat) (u : UserRow)
    (h : c (uid, date) = none) :
    ∃ resp, (dailyGet db c [(uid, u)] uid date false).1 = .ok resp ∧
      resp.summary.total = sumNutrition (entriesFor db uid date) ∧
      resp.summary.totalFoods = (entriesFor db uid date).length ∧
      resp.fromCache = false := by
  have hu : lookupUser [(uid, u)] uid = some u := by simp [lookupUser]
  simp only [dailyGet, h, dailyCompute, hu]
  exact ⟨_, rfl, rfl, rfl, rfl⟩

theorem logEntry_ok {st : SysState} {uid : Nat} {req : LogRequest} {row : FoodLog}
    {st2 : SysState} (h : logEntry st uid req = .ok (row, st2)) :
    row.log_date = req.logDate ∧
    st2.cache = cacheDel st.cache (uid, req.logDate) ∧
    st2.db.logs = st.db.logs ++ [row] := by
  simp only [logEntry] at h
  cases hres : resolveNutrition st.customFoods st.catalog uid req with
  | error e => rw [hres] at h; cases h
  | ok nd =>
    rw [hres] at h
    simp only [Except.ok.injEq, Prod.mk.injEq] at h
    obtain ⟨hrow, hst⟩ := h
    subst hrow
    subst hst
    exact ⟨rfl, rfl, rfl⟩

theorem updateEntry_ok {st : SysState} {uid id : Nat} {req : UpdateRequest} {row : FoodLog}
    {st2 : SysState} (h : updateEntry st uid id req = .ok (row, st2)) :
    ∃ e, (st.db.logs.filter (fun x => x.id == id && x.user_id == uid)).head? = some e ∧
      row = applyUpdate req e ∧
      st2.cache = cacheDel st.cache (uid, e.log_date) := by
  simp only [updateEntry] at h
  split at h
  · cases h
  · rename_i e hhead
    split at h
    · cases h
    · simp only [Except.ok.injEq, Prod.mk.injEq] at h
      exact ⟨e, hhead, h.1.symm, by rw [← h.2]⟩

theorem deleteEntry_ok {st : SysState} {uid id : Nat} {d : Nat} {st2 : SysState}
    (h : deleteEntry st uid id = .ok (d, st2)) :
    ∃ e, (st.db.logs.filter (fun x => x.id == id && x.user_id == uid)).head? = some e ∧
      d = e.log_date ∧ st2.cache = cacheDel st.cache (uid, e.log_date) := by
  simp only [deleteEntry] at h
  split at h
  · cases h
  · rename_i e hhead
    simp only [Except.ok.injEq, Prod.mk.injEq] at h
    exact ⟨e, hhead, h.1.symm, by rw [← h.2]⟩

/-! ### Claim theorems -/

/-- Claim C1: every successful `logEntry`, `updateEntry` or `deleteEntry`
deletes the daily aggregate cache key of the affected user and date before
the write's response is returned (in the returned state the key is absent),
so a subsequent `dailySummary` for that user and date recomputes from the
store and its totals reflect the written entry — never a previously cached
value. -/
theorem write_invalidates_c1 :
    ∀ (st : SysState) (uid : Nat) (op : WriteOp) (d : Nat) (st2 : SysState) (u : UserRow),
      applyWrite st uid op = .ok (d, st2) →
      st2.cache (uid, d) = none ∧
      affectedDateOk st uid op d ∧
      ∃ resp, (dailyGet st2.db st2.cache [(uid, u)] uid d false).1 = .ok resp ∧
        resp.summary.total = sumNutrition (entriesFor st2.db uid d) ∧
        resp.summary.totalFoods = (entriesFor st2.db uid d).length ∧
        resp.fromCache = false := by
  intro st uid op d st2 u h
  have hkey : st2.cache (uid, d) = none ∧ affectedDateOk st uid op d := by
    cases op with
    | log req =>
      simp only [applyWrite] at h
      cases hlog : logEntry st uid req with
      | error e => rw [hlog] at h; cases h
      | ok p =>
        rw [hlog] at h
        simp only [Except.map, Except.ok.injEq, Prod.mk.injEq] at h
        obtain ⟨hd, hst⟩ := h
        subst hd
        subst hst
        obtain ⟨-, hcache, -⟩ := logEntry_ok hlog
        exact ⟨by rw [hcache]; exact cacheDel_self _ _, rfl⟩
    | update id req =>
      simp only [applyWrite] at h
      cases hup : updateEntry st uid id req with
      | error e => rw [hup] at h; cases h
      | ok p =>
        rw [hup] at h
        simp only [Except.map, Except.ok.injEq, Prod.mk.injEq] at h
        obtain ⟨hd, hst⟩ := h
        subst hst
        obtain ⟨e, hhead, hrow, hst2⟩ := updateEntry_ok hup
        obtain ⟨hmem, hp⟩ := head_filter_mem _ _ _ hhead
        simp only [Bool.and_eq_true, beq_iff_eq] at hp
        have hld : p.1.log_date = e.log_date := by rw [hrow]; rfl
        constructor
        · rw [← hd, hld, hst2]
          exact cacheDel_self _ _
        · exact ⟨e, hmem, hp.1, hp.2, by rw [← hd, hld]⟩
    | delete id =>
      simp only [applyWrite] at h
      obtain ⟨e, hhead, hd, hcache⟩ := deleteEntry_ok h
      obtain ⟨hmem, hp⟩ := head_filter_mem _ _ _ hhead
      simp only [Bool.and_eq_true, beq_iff_eq] at hp
      constructor
      · rw [hcache, hd]
        exact cacheDel_self _ _
      · exact ⟨e, hmem, hp.1, hp.2, hd.symm⟩
  exact ⟨hkey.1, hkey.2, dailyGet_miss st2.db st2.cache uid d u hkey.1⟩

/-- Claim C1 witness: a concrete log write over a seeded stale cache entry. -/
theorem write_invalidates_c1_witness :
    applyWrite wSt0 1 (.log wLogReq) = .ok (20000, wSt1) ∧
    (wSt1.cache (1, 20000) = none ∧ affectedDateOk wSt0 1 (.log wLogReq) 20000 ∧
      ∃ resp, (dailyGet wSt1.db wSt1.cache [(1, wUser)] 1 20000 false).1 = .ok resp ∧
        resp.summary.total = sumNutrition (entriesFor wSt1.db 1 20000) ∧
        resp.summary.totalFoods = (entriesFor wSt1.db 1 20000).length ∧
        resp.fromCache = false) :=
  ⟨rfl, write_invalidates_c1 wSt0 1 (.log wLogReq) 20000 wSt1 wUser rfl⟩

/-- Claim C2 counterexample: logging with only a custom-food id succeeds,
but the stored row has neither `food_id` nor `custom_food_name` set (the
INSERT has no custom-food-id column), so the persisted entry carries no
source reference — contradicting the claim that every persisted entry
retains its request's source reference. -/
theorem log_source_c2_counterexample :
    c2Req.foodId = none ∧ c2Req.customFoodId = some 5 ∧ c2Req.customFoodName = none ∧
    (logEntry c2St 1 c2Req).toOption.map
      (fun p => (p.1.hasSourceRef, p.2.db.logs.map FoodLog.hasSourceRef)) =
      some (false, [false]) := by
  exact ⟨rfl, rfl, rfl, rfl⟩

/-- Claim C2 amended: a log request supplying none of the three source
references (after JS truthiness) is rejected at resolution time with
`InvalidSource` before any write; a persisted entry retains the request's
`foodId` and `customFoodName`, but the custom-food id is not among the
inserted columns, so an entry logged with only a custom-food id has no
source reference in its stored row. -/
theorem log_source_c2 :
    (∀ st uid req, jsTruthyN req.foodId = false → jsTruthyN req.customFoodId = false →
      jsTruthyS req.customFoodName = false →
      logEntry st uid req = .error .invalidSource) ∧
    (∀ st uid req row st2, logEntry st uid req = .ok (row, st2) →
      row.food_id = req.foodId ∧ row.custom_food_name = req.customFoodName ∧
      row ∈ st2.db.logs) := by
  constructor
  · intro st uid req h1 h2 h3
    simp [logEntry, resolveNutrition, h1, h2, h3]
  · intro st uid req row st2 h
    simp only [logEntry] at h
    cases hres : resolveNutrition st.customFoods st.catalog uid req with
    | error e => rw [hres] at h; cases h
    | ok nd =>
      rw [hres] at h
      simp only [Except.ok.injEq, Prod.mk.injEq] at h
      obtain ⟨hrow, hst⟩ := h
      subst hrow
      subst hst
      refine ⟨rfl, rfl, ?_⟩
      simp

/-- Claim C2 witness: both amended parts applied at concrete inputs. -/
theorem log_source_c2_witness :
    (jsTruthyN c2NoSrcReq.foodId = false ∧ jsTruthyN c2NoSrcReq.customFoodId = false ∧
      jsTruthyS c2NoSrcReq.customFoodName = false ∧
      logEntry c2St 1 c2NoSrcReq = .error .invalidSource) ∧
    (logEntry c2St 1 c2Req = .ok (c2Row, c2St2) ∧
      (c2Row.food_id = c2Req.foodId ∧ c2Row.custom_food_name = c2Req.customFoodName ∧
        c2Row ∈ c2St2.db.logs)) :=
  ⟨⟨rfl, rfl, rfl, log_source_c2.1 c2St 1 c2NoSrcReq rfl rfl rfl⟩,
   ⟨rfl, log_source_c2.2 c2St 1 c2Req c2Row c2St2 rfl⟩⟩

/-- Claim C3 counterexample: food 5 has only an Energy row, and the request
supplies an explicit protein of 50; the resolved payload's protein is 50,
not the 0 the claim requires for a canonical field with no matching row. -/
theorem resolve_catalog_c3_counterexample :
    c3Req.foodId = some 5 ∧ c3Req.customFoodId = none ∧ c3Req.protein = some 50 ∧
    ((fetchCatalogNutrients c3Catalog 5).filter
      (fun r => r.name == canonicalName .protein)) = [] ∧
    (resolveNutrition [] c3Catalog 1 c3Req).toOption.map (fun nd => nd.protein) =
      some 50 := by
  exact ⟨rfl, rfl, rfl, rfl, rfl⟩

/-- Claim C3 amended: on the catalog-food path the resolver filters to the
seven canonical nutrient names and multiplies each matched amount by the
request's amount (last match winning); a canonical field with no matching
row keeps the caller's explicitly supplied value (0 only when none was
supplied); a partial match is not a failure. -/
theorem resolve_catalog_c3 :
    ∀ (customFoods : List CustomFood) (catalog : List CatalogRow) (uid : Nat)
      (req : LogRequest),
      jsTruthyN req.customFoodId = false → jsTruthyN req.foodId = true →
      ∃ nd, resolveNutrition customFoods catalog uid req = .ok nd ∧
        ∀ f : Nutrient,
          nd.get f = ((fetchCatalogNutrients catalog (req.foodId.getD 0)).filter
              (fun r => r.name == canonicalName f)).foldl
              (fun _ r => r.amount * req.amount) (num (req.explicitN f)) ∧
          (((fetchCatalogNutrients catalog (req.foodId.getD 0)).filter
              (fun r => r.name == canonicalName f)) = [] →
            nd.get f = num (req.explicitN f)) ∧
          (∀ rs r, ((fetchCatalogNutrients catalog (req.foodId.getD 0)).filter
              (fun r2 => r2.name == canonicalName f)) = rs ++ [r] →
            nd.get f = r.amount * req.amount) := by
  intro customFoods catalog uid req h1 h2
  have hres : resolveNutrition customFoods catalog uid req =
      .ok ((fetchCatalogNutrients catalog (req.foodId.getD 0)).foldl
        (applyCatalogRow req.amount)
        { calories := num req.calories, protein := num req.protein, carbs := num req.carbs,
          fat := num req.fat, fiber := num req.fiber, sugar := num req.sugar,
          sodium := num req.sodium }) := by
    simp [resolveNutrition, h1, h2]
  refine ⟨_, hres, fun f => ⟨?_, ?_, ?_⟩⟩
  · rw [get_foldl_applyCatalogRow, get_seedPayload]
  · intro hempty
    rw [get_foldl_applyCatalogRow, hempty, get_seedPayload]
    rfl
  · intro rs r hsplit
    rw [get_foldl_applyCatalogRow, hsplit, List.foldl_append]
    rfl

/-- Claim C3 witness: the amended theorem at the counterexample's input. -/
theorem resolve_catalog_c3_witness :
    jsTruthyN c3Req.customFoodId = false ∧ jsTruthyN c3Req.foodId = true ∧
    ∃ nd, resolveNutrition [] c3Catalog 1 c3Req = .ok nd ∧
      ∀ f : Nutrient,
        nd.get f = ((fetchCatalogNutrients c3Catalog (c3Req.foodId.getD 0)).filter
            (fun r => r.name == canonicalName f)).foldl
            (fun _ r => r.amount * c3Req.amount) (num (c3Req.explicitN f)) ∧
        (((fetchCatalogNutrients c3Catalog (c3Req.foodId.getD 0)).filter
            (fun r => r.name == canonicalName f)) = [] →
          nd.get f = num (c3Req.explicitN f)) ∧
        (∀ rs r, ((fetchCatalogNutrients c3Catalog (c3Req.foodId.getD 0)).filter
            (fun r2 => r2.name == canonicalName f)) = rs ++ [r] →
          nd.get f = r.amount * c3Req.amount) :=
  ⟨rfl, rfl, resolve_catalog_c3 [] c3Catalog 1 c3Req rfl rfl⟩

/-- Claim C8: `rateLimit.check` increments the counter at the key, sets the
key's expiry to the window exactly when the post-increment value is 1, and
allows the call iff the post-increment count is at most the limit; four
consecutive calls on one key with limit 3 give allowed = T,T,T,F. -/
theorem rateLimit_check_c8 :
    (∀ (s : RedisState) (key : String) (limit window : Nat),
      (rateLimitCheck goodOps key limit window s).1.count = s.counters key + 1 ∧
      ((rateLimitCheck goodOps key limit window s).1.allowed = true ↔
        (rateLimitCheck goodOps key limit window s).1.count ≤ limit) ∧
      (rateLimitCheck goodOps key limit window s).2.counters key = s.counters key + 1 ∧
      (rateLimitCheck goodOps key limit window s).2.expiry key =
        (if s.counters key + 1 = 1 then some window else s.expiry key)) ∧
    rlAllowedSeq = [true, true, true, false] := by
  constructor
  · intro s key limit window
    simp only [rateLimitCheck, runCheck, goodOps]
    split_ifs with h
    · simp [h]
    · simp [h]
  · decide

/-- Claim C8 witness: the generic part applied to the empty store. -/
theorem rateLimit_check_c8_witness :
    (rateLimitCheck goodOps rlKey 3 60 RedisState.empty).1.count =
      RedisState.empty.counters rlKey + 1 ∧
    ((rateLimitCheck goodOps rlKey 3 60 RedisState.empty).1.allowed = true ↔
      (rateLimitCheck goodOps rlKey 3 60 RedisState.empty).1.count ≤ 3) :=
  ⟨(rateLimit_check_c8.1 RedisState.empty rlKey 3 60).1,
   (rateLimit_check_c8.1 RedisState.empty rlKey 3 60).2.1⟩

/-- Claim C9: when any redis operation of `rateLimit.check` fails, the
`catch` returns the fail-open result, so the call is allowed. -/
theorem rateLimit_failopen_c9 : ∀ {σ : Type} (ops : RedisOps σ) (key : String)
    (limit window : Nat) (s : σ) (e : Unit),
    runCheck ops key limit window s = .error e →
    rateLimitCheck ops key limit window s =
      ({ allowed := true, count := 0, limit := limit, resetTime := 0 }, s) ∧
    (rateLimitCheck ops key limit window s).1.allowed = true := by
  intro σ ops key limit window s e h
  constructor <;> simp [rateLimitCheck, h]

/-- Claim C9 witness: a store whose operations all fail admits the call. -/
theorem rateLimit_failopen_c9_witness :
    runCheck failOps "k" 3 60 () = .error () ∧
    (rateLimitCheck failOps "k" 3 60 () =
      ({ allowed := true, count := 0, limit := 3, resetTime := 0 }, ()) ∧
    (rateLimitCheck failOps "k" 3 60 ()).1.allowed = true) :=
  ⟨rfl, rateLimit_failopen_c9 failOps "k" 3 60 () () rfl⟩

/-- Claim C4 counterexample: an entry with amount 1 and 100 kcal is updated
to amount 2; the update succeeds but the stored calories stay 100 — the
nutrient payload is not recomputed to match the new amount as the claim
requires. -/
theorem update_frame_c4_counterexample :
    c4Entry.amount = 1 ∧ c4Entry.nutrition.calories = 100 ∧ c4Req.amount = some 2 ∧
    (updateEntry c4St 1 1 c4Req).toOption.map
      (fun p => (p.1.amount, p.1.nutrition.calories)) = some (2, 100) := by
  exact ⟨rfl, rfl, rfl, rfl⟩

/-- Claim C4 amended: `updateEntry` may change only amount, unit, mealType
and logTime; the seven nutrient-payload fields of the stored entry remain
unchanged by every update, including updates that change amount — no
recomputation of the payload ever happens. -/
theorem update_frame_c4 :
    (∀ (req : UpdateRequest) (e : FoodLog),
      (applyUpdate req e).nutrition = e.nutrition ∧ (applyUpdate req e).id = e.id ∧
      (applyUpdate req e).user_id = e.user_id ∧ (applyUpdate req e).food_id = e.food_id ∧
      (applyUpdate req e).custom_food_name = e.custom_food_name ∧
      (applyUpdate req e).log_date = e.log_date) ∧
    (∀ st uid id req row st2, updateEntry st uid id req = .ok (row, st2) →
      (∃ e, (st.db.logs.filter (fun x => x.id == id && x.user_id == uid)).head? = some e ∧
        row = applyUpdate req e) ∧
      st2.db.logs = st.db.logs.map
        (fun e => if e.id == id && e.user_id == uid then applyUpdate req e else e)) := by
  constructor
  · intro req e
    exact ⟨rfl, rfl, rfl, rfl, rfl, rfl⟩
  · intro st uid id req row st2 h
    simp only [updateEntry] at h
    split at h
    · cases h
    · rename_i e hhead
      split at h
      · cases h
      · simp only [Except.ok.injEq, Prod.mk.injEq] at h
        obtain ⟨hrow, hst⟩ := h
        subst hrow
        subst hst
        exact ⟨⟨e, hhead, rfl⟩, rfl⟩

/-- Claim C4 witness: both amended parts at the counterexample's input. -/
theorem update_frame_c4_witness :
    ((applyUpdate c4Req c4Entry).nutrition = c4Entry.nutrition ∧
      (applyUpdate c4Req c4Entry).id = c4Entry.id ∧
      (applyUpdate c4Req c4Entry).user_id = c4Entry.user_id ∧
      (applyUpdate c4Req c4Entry).food_id = c4Entry.food_id ∧
      (applyUpdate c4Req c4Entry).custom_food_name = c4Entry.custom_food_name ∧
      (applyUpdate c4Req c4Entry).log_date = c4Entry.log_date) ∧
    (updateEntry c4St 1 1 c4Req = .ok (c4Row, c4St2) ∧
      ((∃ e, (c4St.db.logs.filter (fun x => x.id == 1 && x.user_id == 1)).head? = some e ∧
        c4Row = applyUpdate c4Req e) ∧
      c4St2.db.logs = c4St.db.logs.map
        (fun e => if e.id == 1 && e.user_id == 1 then applyUpdate c4Req e else e))) :=
  ⟨update_frame_c4.1 c4Req c4Entry,
   ⟨rfl, update_frame_c4.2 c4St 1 1 c4Req c4Row c4St2 rfl⟩⟩

/-- Claim C5 counterexample: a `/daily` request with the per-meal breakdown
stores the breakdown-bearing response into the daily cache, and a later
request without the breakdown is served that cached response — meals
included — from cache. -/
theorem daily_meals_cache_c5_counterexample :
    (c5Cache1 (1, 20000)).map (fun r => r.meals.isSome) = some true ∧
    (dailyGet c5Db c5Cache1 [(1, wUser)] 1 20000 false).1.toOption.map
      (fun r => (r.fromCache, r.meals.isSome)) = some (true, true) := by
  exact ⟨rfl, rfl⟩

/-- Claim C5 amended: a dailySummary request with per-meal breakdown is
always recomputed, never served from cache; but the recomputed response —
breakdown included — is stored into the daily aggregate cache, and any
later request without the breakdown is served the cached response verbatim,
so it can receive a per-meal breakdown from cache. -/
theorem daily_meals_cache_c5 :
    (∀ db c users uid date r c2,
      dailyGet db c users uid date true = (.ok r, c2) →
      r.fromCache = false ∧ r.meals ≠ none ∧ c2 (uid, date) = some r) ∧
    (∀ db c users uid date r, c (uid, date) = some r →
      dailyGet db c users uid date false = (.ok { r with fromCache := true }, c)) := by
  constructor
  · intro db c users uid date r c2 h
    have hc : dailyCompute db users uid date true c = (.ok r, c2) := by
      simp only [dailyGet] at h
      cases hk : c (uid, date) with
      | none => rw [hk] at h; exact h
      | some v => rw [hk] at h; simpa using h
    simp only [dailyCompute] at hc
    cases hu : lookupUser users uid with
    | none => rw [hu] at hc; simp at hc
    | some u =>
      rw [hu] at hc
      simp only [Prod.mk.injEq, Except.ok.injEq] at hc
      obtain ⟨hr, hc2⟩ := hc
      subst hr
      subst hc2
      refine ⟨rfl, by simp, ?_⟩
      simp [cacheSet]
  · intro db c users uid date r h
    simp [dailyGet, h]

/-- Claim C5 witness: both amended parts at the counterexample's state. -/
theorem daily_meals_cache_c5_witness :
    (dailyGet c5Db emptyDCache [(1, wUser)] 1 20000 true = (.ok c5R1, c5Cache1) ∧
      (c5R1.fromCache = false ∧ c5R1.meals ≠ none ∧ c5Cache1 (1, 20000) = some c5R1)) ∧
    (c5Cache1 (1, 20000) = some c5R1 ∧
      dailyGet c5Db c5Cache1 [(1, wUser)] 1 20000 false =
        (.ok { c5R1 with fromCache := true }, c5Cache1)) :=
  ⟨⟨rfl, daily_meals_cache_c5.1 c5Db emptyDCache [(1, wUser)] 1 20000 c5R1 c5Cache1 rfl⟩,
   ⟨rfl, daily_meals_cache_c5.2 c5Db c5Cache1 [(1, wUser)] 1 20000 c5R1 rfl⟩⟩

theorem computePercentages_get (t g : NutritionPayload) (f : Nutrient) :
    (computePercentages t g).get f = jsRound (t.get f / g.get f * 100) := by
  cases f <;> rfl

theorem computeTargets_ne_zero (u : UserRow) (f : Nutrient) :
    (computeTargets u).get f ≠ 0 := by
  cases f
  case calories =>
    simp only [computeTargets, NutritionPayload.get, jsOr]
    split_ifs with h1 h2
    · norm_num
    · exact h2
    · exact h1
  case protein =>
    simp only [computeTargets, NutritionPayload.get, jsOr]
    split_ifs with h1 h2
    · exact mul_ne_zero h2 (by norm_num)
    · norm_num
    · exact h1
  case carbs =>
    simp only [computeTargets, NutritionPayload.get, jsOr]
    split_ifs with h1 h2
    · exact div_ne_zero (mul_ne_zero h2 (by norm_num)) (by norm_num)
    · norm_num
    · exact h1
  case fat =>
    simp only [computeTargets, NutritionPayload.get, jsOr]
    split_ifs with h1 h2
    · exact div_ne_zero (mul_ne_zero h2 (by norm_num)) (by norm_num)
    · norm_num
    · exact h1
  case fiber =>
    simp only [computeTargets, NutritionPayload.get, jsOr]
    split_ifs with h1
    · norm_num
    · exact h1
  case sugar =>
    simp only [computeTargets, NutritionPayload.get, jsOr]
    split_ifs with h1
    · norm_num
    · exact h1
  case sodium =>
    simp only [computeTargets, NutritionPayload.get, jsOr]
    split_ifs with h1
    · norm_num
    · exact h1

/-- Claim C6: every daily-summary percentage equals
`round(100 * total/target)`, and every resolved target is nonzero (the `||`
fallback chain replaces an explicitly configured 0 by a nonzero default), so
the percentage is always well defined and no division by zero occurs. -/
theorem daily_percent_c6 :
    ∀ db users uid date im c r c2,
      dailyCompute db users uid date im c = (.ok r, c2) →
      ∀ f, r.summary.targets.get f ≠ 0 ∧
        r.summary.percentages.get f =
          jsRound (r.summary.total.get f / r.summary.targets.get f * 100) := by
  intro db users uid date im c r c2 h
  simp only [dailyCompute] at h
  cases hu : lookupUser users uid with
  | none => rw [hu] at h; simp at h
  | some u =>
    rw [hu] at h
    simp only [Prod.mk.injEq, Except.ok.injEq] at h
    obtain ⟨hr, -⟩ := h
    subst hr
    intro f
    exact ⟨computeTargets_ne_zero u f, computePercentages_get _ _ f⟩

/-- Claim C6 witness: the theorem at a concrete computed summary. -/
theorem daily_percent_c6_witness :
    dailyCompute c5Db [(1, wUser)] 1 20000 false emptyDCache = (.ok c6R, c6C2) ∧
    (c6R.summary.targets.get .calories ≠ 0 ∧
      c6R.summary.percentages.get .calories =
        jsRound (c6R.summary.total.get .calories / c6R.summary.targets.get .calories * 100)) :=
  ⟨rfl, daily_percent_c6 c5Db [(1, wUser)] 1 20000 false emptyDCache c6R c6C2 rfl .calories⟩

/-- Claim C7 counterexample: day 19725 (2024-01-03) is a Wednesday
(`getDay = 3`, not Monday's 1); the Monday of its week is 19723; yet the
route uses the explicit `weekStart = 19725` verbatim as the window start —
no normalization to Monday happens. -/
theorem weekly_weekstart_c7_counterexample :
    jsGetDay 19725 = 3 ∧ mondayOf 19725 = 19723 ∧
    resolveWeekStart (some 19725) 19800 = 19725 ∧
    (weeklyGet emptyDb emptyWCache 1 (some 19725) 19800).1.weekStart = 19725 ∧
    (19725 : Nat) ≠ 19723 := by
  refine ⟨by decide, by decide, rfl, rfl, by decide⟩

/-- Claim C7 amended: an explicit `weekStart` is used as-is (not normalized
to Monday); only when `weekStart` is absent is the current week's Monday
used; the summarized 7-day window begins at that resolved start. -/
theorem weekly_weekstart_c7 :
    (∀ d t, resolveWeekStart (some d) t = d) ∧
    (∀ t, 6 ≤ t → resolveWeekStart none t = mondayOf t ∧ jsGetDay (mondayOf t) = 1) ∧
    (∀ db wc uid ws t,
      wc (uid, resolveWeekStart ws t) = none →
      (weeklyGet db wc uid ws t).1.weekStart = resolveWeekStart ws t ∧
      (weeklyGet db wc uid ws t).1.weekEnd = resolveWeekStart ws t + 6 ∧
      (weeklyGet db wc uid ws t).1.summary = computeWeekly db uid (resolveWeekStart ws t)) := by
  refine ⟨fun d t => rfl, ?_, ?_⟩
  · intro t ht
    refine ⟨rfl, ?_⟩
    unfold mondayOf jsGetDay
    split_ifs with h <;> omega
  · intro db wc uid ws t h
    refine ⟨?_, ?_, ?_⟩ <;> simp [weeklyGet, h]

/-- Claim C7 witness: the amended theorem applied at a concrete
non-Monday explicit start and at an absent start. -/
theorem weekly_weekstart_c7_witness :
    (6 ≤ 19800 ∧
      (resolveWeekStart none 19800 = mondayOf 19800 ∧ jsGetDay (mondayOf 19800) = 1)) ∧
    (emptyWCache (1, resolveWeekStart (some 19725) 19800) = none ∧
      ((weeklyGet emptyDb emptyWCache 1 (some 19725) 19800).1.weekStart =
          resolveWeekStart (some 19725) 19800 ∧
        (weeklyGet emptyDb emptyWCache 1 (some 19725) 19800).1.weekEnd =
          resolveWeekStart (some 19725) 19800 + 6 ∧
        (weeklyGet emptyDb emptyWCache 1 (some 19725) 19800).1.summary =
          computeWeekly emptyDb 1 (resolveWeekStart (some 19725) 19800))) :=
  ⟨⟨by decide, weekly_weekstart_c7.2.1 19800 (by decide)⟩,
   ⟨rfl, weekly_weekstart_c7.2.2 emptyDb emptyWCache 1 (some 19725) 19800 rfl⟩⟩

/-- Claim C10: every weekly per-field average is the rounded weekly total
divided by the number of days in the 7-day window having at least one entry
(divisor floored at 1), never by 7; three days totalling 1800, 2000 and 2200
kcal give average calories 2000. -/
theorem weekly_average_c10 :
    (∀ db uid start f,
      (computeWeekly db uid start).dailyData.length = (daysWithEntries db uid start).length ∧
      (computeWeekly db uid start).average.get f =
        jsRound ((computeWeekly db uid start).total.nutrition.get f /
          (((if (daysWithEntries db uid start).length = 0 then 1
              else (daysWithEntries db uid start).length) : Nat) : ℚ))) ∧
    ((daysWithEntries c10Db 1 19723).length = 3 ∧
      (computeWeekly c10Db 1 19723).total.nutrition.calories = 6000 ∧
      (computeWeekly c10Db 1 19723).average.calories = 2000) := by
  constructor
  · intro db uid start f
    constructor
    · exact length_weeklyRows db uid start
    · cases f <;>
        simp only [computeWeekly, IntPayload.get, NutritionPayload.get,
          length_weeklyRows]
  · refine ⟨?_, ?_, ?_⟩ <;>
      simp only [daysWithEntries, weekDates, computeWeekly, weeklyRows, entriesFor, c10Db,
        c10Entry, sumNutrition, NutritionPayload.add, NutritionPayload.zero, jsRound,
        List.filter, List.filterMap, List.foldl, List.length] <;>
      norm_num [Int.floor_eq_iff]

end AICalories
